import Mathlib

/-!
Verification development for the weatherchannel trading engine.

Shallow embedding of the Python source under src/engine/.  Python floats
are modelled as rationals (ℚ): every claim under verification is an exact
arithmetic identity or comparison that the float code computes with the
same operations.  Wall-clock reads (datetime.now), the transcendental
normal CDF (scipy norm.cdf), SHA-256 and printf-style number formatting
are abstracted as explicit parameters; each such abstraction is noted at
the definition it concerns.  Human-readable audit strings (the detail
field of risk checks, error messages) are carried but Python f-string
number formatting is not reproduced in them; no claim depends on the
text of those strings.
-/

namespace WeatherEngine

/-- Block reasons, from src/engine/models/risk.py (BlockReason). -/
inductive BlockReason
  | KILL_SWITCH
  | PAUSED
  | POSITION_SIZE
  | TRADES_PER_RUN
  | TOTAL_EXPOSURE
  | PER_CITY_EXPOSURE
  | DAILY_LOSS
  | COOLDOWN
  | TIME_TO_RESOLUTION
  | SLIPPAGE
deriving Repr, DecidableEq

/-- Result of one risk check, from src/engine/models/risk.py (RiskCheckResult). -/
structure RiskCheckResult where
  check_name : String
  passed : Bool
  block_reason : Option BlockReason
  detail : String
deriving Repr, DecidableEq

/-- Verdict of the risk engine, from src/engine/models/risk.py (RiskVerdict). -/
structure RiskVerdict where
  approved : Bool
  checks : List RiskCheckResult
deriving Repr, DecidableEq

/-- src/engine/risk/checks/kill_switch.py, check. -/
def kill_switch_check (kill_switch_active : Bool) : RiskCheckResult :=
  if kill_switch_active then
    { check_name := "kill_switch", passed := false,
      block_reason := some BlockReason.KILL_SWITCH,
      detail := "Kill switch is active" }
  else
    { check_name := "kill_switch", passed := true, block_reason := none, detail := "ok" }

/-- src/engine/risk/checks/paused.py, check. -/
def paused_check (is_paused : Bool) : RiskCheckResult :=
  if is_paused then
    { check_name := "paused", passed := false,
      block_reason := some BlockReason.PAUSED,
      detail := "System is paused" }
  else
    { check_name := "paused", passed := true, block_reason := none, detail := "ok" }

/-- src/engine/risk/checks/position_size.py, check. -/
def position_size_check (proposed_size_usd max_position_size_usd : ℚ) : RiskCheckResult :=
  if proposed_size_usd > max_position_size_usd then
    { check_name := "position_size", passed := false,
      block_reason := some BlockReason.POSITION_SIZE,
      detail := "proposed size above limit" }
  else
    { check_name := "position_size", passed := true, block_reason := none, detail := "ok" }

/-- src/engine/risk/checks/trades_per_run.py, check.  Python ints are ℕ here
(both counters are non-negative in the program). -/
def trades_per_run_check (trades_this_run max_trades_per_run : ℕ) : RiskCheckResult :=
  if trades_this_run ≥ max_trades_per_run then
    { check_name := "trades_per_run", passed := false,
      block_reason := some BlockReason.TRADES_PER_RUN,
      detail := "trade count at limit" }
  else
    { check_name := "trades_per_run", passed := true, block_reason := none, detail := "ok" }

/-- src/engine/risk/checks/total_exposure.py, check. -/
def total_exposure_check (current_exposure_usd proposed_size_usd max_total_exposure_usd : ℚ) :
    RiskCheckResult :=
  let new_total := current_exposure_usd + proposed_size_usd
  if new_total > max_total_exposure_usd then
    { check_name := "total_exposure", passed := false,
      block_reason := some BlockReason.TOTAL_EXPOSURE,
      detail := "new total above limit" }
  else
    { check_name := "total_exposure", passed := true, block_reason := none, detail := "ok" }

/-- src/engine/risk/checks/per_city_exposure.py, check. -/
def per_city_exposure_check
    (city_exposure_usd proposed_size_usd max_per_city_exposure_usd : ℚ) : RiskCheckResult :=
  let new_total := city_exposure_usd + proposed_size_usd
  if new_total > max_per_city_exposure_usd then
    { check_name := "per_city_exposure", passed := false,
      block_reason := some BlockReason.PER_CITY_EXPOSURE,
      detail := "new city total above limit" }
  else
    { check_name := "per_city_exposure", passed := true, block_reason := none, detail := "ok" }

/-- src/engine/risk/checks/daily_loss.py, check. -/
def daily_loss_check (daily_loss_usd max_daily_loss_usd : ℚ) : RiskCheckResult :=
  if daily_loss_usd > max_daily_loss_usd then
    { check_name := "daily_loss", passed := false,
      block_reason := some BlockReason.DAILY_LOSS,
      detail := "daily loss above limit" }
  else
    { check_name := "daily_loss", passed := true, block_reason := none, detail := "ok" }

/-- src/engine/risk/checks/cooldown.py, check.  A missing previous trade is
None in Python, none here; cooldown_minutes is a Python int. -/
def cooldown_check (minutes_since_last_trade : Option ℚ) (cooldown_minutes : ℕ) :
    RiskCheckResult :=
  match minutes_since_last_trade with
  | some m =>
    if m < (cooldown_minutes : ℚ) then
      { check_name := "cooldown", passed := false,
        block_reason := some BlockReason.COOLDOWN,
        detail := "inside cooldown window" }
    else
      { check_name := "cooldown", passed := true, block_reason := none, detail := "ok" }
  | none =>
    { check_name := "cooldown", passed := true, block_reason := none, detail := "ok" }

/-- src/engine/risk/checks/time_to_resolution.py, check. -/
def time_to_resolution_check (hours_to_resolution min_hours : ℚ) : RiskCheckResult :=
  if hours_to_resolution < min_hours then
    { check_name := "time_to_resolution", passed := false,
      block_reason := some BlockReason.TIME_TO_RESOLUTION,
      detail := "resolves too soon" }
  else
    { check_name := "time_to_resolution", passed := true, block_reason := none, detail := "ok" }

/-- src/engine/risk/checks/slippage.py, check. -/
def slippage_check (best_bid best_ask slippage_ceiling : ℚ) : RiskCheckResult :=
  if best_bid ≤ 0 then
    { check_name := "slippage", passed := false,
      block_reason := some BlockReason.SLIPPAGE,
      detail := "Best bid is zero or negative" }
  else
    let spread := (best_ask - best_bid) / best_bid
    if spread > slippage_ceiling then
      { check_name := "slippage", passed := false,
        block_reason := some BlockReason.SLIPPAGE,
        detail := "spread above ceiling" }
    else
      { check_name := "slippage", passed := true, block_reason := none, detail := "ok" }

/-- Reason codes, from src/engine/models/signal.py (ReasonCode). -/
inductive ReasonCode
  | OPPORTUNITY
  | EDGE_BELOW_THRESHOLD
  | PRICE_ABOVE_MAX_ENTRY
  | NOT_ACCEPTING_ORDERS
  | ZERO_LIQUIDITY
  | NO_FORECAST_AVAILABLE
  | STALE_FORECAST_DATA
  | STALE_MARKET_DATA
  | BUCKET_PARSE_ERROR
  | PROBABILITY_SUM_WARNING
  | NEGATIVE_EDGE
  | INSUFFICIENT_SPREAD
deriving Repr, DecidableEq

/-- Edge computation record, from src/engine/models/signal.py (EdgeResult). -/
structure EdgeResult where
  run_id : String
  event_id : String
  market_id : String
  city_slug : String
  target_date : String
  bucket_label : String
  bucket_probability : ℚ
  market_price_yes : ℚ
  gross_edge : ℚ
  fee_estimate : ℚ
  slippage_estimate : ℚ
  net_edge : ℚ
  reason_code : ReasonCode
  sigma_used : ℚ
deriving Repr, DecidableEq

/-- Promoted opportunity, from src/engine/models/signal.py (Signal). -/
structure Signal where
  edge_result : EdgeResult
  market_id : String
  clob_token_id_yes : String
  proposed_size_usd : ℚ
deriving Repr, DecidableEq

/-- Bucket shapes, from src/engine/models/market.py (BucketType). -/
inductive BucketType
  | OR_HIGHER
  | OR_BELOW
  | RANGE
  | EXACT
deriving Repr, DecidableEq

/-- Temperature unit tag, from src/engine/models/market.py (TemperatureUnit). -/
inductive TemperatureUnit
  | FAHRENHEIT
  | CELSIUS
deriving Repr, DecidableEq

/-- src/engine/models/market.py (TemperatureBucket).  Integer bounds; for
EXACT / OR_HIGHER / OR_BELOW the code stores the single threshold in low. -/
structure TemperatureBucket where
  bucket_type : BucketType
  low : ℤ
  high : ℤ
  unit : TemperatureUnit := TemperatureUnit.FAHRENHEIT
deriving Repr, DecidableEq

/-- src/engine/models/market.py (BucketMarket): one bucket contract with
its top-of-book fields. -/
structure BucketMarket where
  market_id : String
  condition_id : String
  clob_token_id_yes : String
  clob_token_id_no : String
  outcome_price_yes : ℚ
  best_bid : ℚ
  best_ask : ℚ
  last_trade_price : ℚ
  liquidity : ℚ
  volume_24hr : ℚ
  maker_base_fee : ℚ
  taker_base_fee : ℚ
  order_min_size : ℚ
  accepting_orders : Bool
  end_date : String
  group_item_title : String
  group_item_threshold : String
  bucket : TemperatureBucket
deriving Repr, DecidableEq

/-- Risk limits, from src/engine/config/schema.py (RiskConfig).  Counters
that are Python ints are ℕ. -/
structure RiskConfig where
  max_position_size_usd : ℚ
  max_trades_per_run : ℕ
  max_total_exposure_usd : ℚ
  max_per_city_exposure_usd : ℚ
  max_daily_loss_usd : ℚ
  cooldown_minutes : ℕ
  min_hours_to_resolution : ℚ
  slippage_ceiling : ℚ
deriving Repr, DecidableEq

/-- View of the derived facts the StateTracker
(src/engine/risk/state_tracker.py) exposes to RiskEngine.evaluate:
control flags, in-cycle trade counter, current total and per-city
exposure, absolute daily loss, minutes since the last trade per market
(none when no previous trade exists).  The tracker reads these from the
store and the wall clock; the engine only consumes the values, so the view
is the faithful interface for evaluate. -/
structure TrackerView where
  kill_switch_active : Bool
  is_paused : Bool
  trades_this_run : ℕ
  total_exposure : ℚ
  city_exposure : String → ℚ
  daily_loss : ℚ
  minutes_since_last_trade : String → Option ℚ

/-- src/engine/risk/engine.py, RiskEngine.evaluate.  Runs all 10 checks in
the fixed source order and never short-circuits.  The helper
_hours_to_resolution(market_end_date) parses the end date and reads the
wall clock; its result is abstracted as the hours_to_resolution parameter.
The tenth check is invoked exactly as in the source: with
edge_result.market_price_yes as the bid proxy and
market_price_yes * 1.02 as the ask estimate (1.02 = 51/50). -/
def riskEngineEvaluate (config : RiskConfig) (state : TrackerView) (signal : Signal)
    (hours_to_resolution : ℚ) : RiskVerdict :=
  let checks : List RiskCheckResult :=
    [ kill_switch_check state.kill_switch_active,
      paused_check state.is_paused,
      position_size_check signal.proposed_size_usd config.max_position_size_usd,
      trades_per_run_check state.trades_this_run config.max_trades_per_run,
      total_exposure_check state.total_exposure signal.proposed_size_usd
        config.max_total_exposure_usd,
      per_city_exposure_check (state.city_exposure signal.edge_result.city_slug)
        signal.proposed_size_usd config.max_per_city_exposure_usd,
      daily_loss_check state.daily_loss config.max_daily_loss_usd,
      cooldown_check (state.minutes_since_last_trade signal.market_id)
        config.cooldown_minutes,
      time_to_resolution_check hours_to_resolution config.min_hours_to_resolution,
      slippage_check signal.edge_result.market_price_yes
        (signal.edge_result.market_price_yes * (51 / 50)) config.slippage_ceiling ]
  { approved := checks.all (·.passed), checks := checks }

/-- One persisted row of the risk_checks table, from
src/engine/storage/risk_repo.py. -/
structure RiskRow where
  run_id : String
  idempotency_key : String
  check_name : String
  passed : Bool
  block_reason : Option BlockReason
  detail : String
deriving Repr, DecidableEq

/-- src/engine/storage/risk_repo.py, save_risk_checks: inserts one row per
check result, all keyed by the same run_id and idempotency_key. -/
def save_risk_checks (rows : List RiskRow) (run_id idempotency_key : String)
    (checks : List RiskCheckResult) : List RiskRow :=
  rows ++ checks.map (fun c =>
    { run_id := run_id, idempotency_key := idempotency_key,
      check_name := c.check_name, passed := c.passed,
      block_reason := c.block_reason, detail := c.detail })

/-- Number of risk_checks rows stored under an idempotency key. -/
def riskRowsForKey (rows : List RiskRow) (key : String) : ℕ :=
  (rows.filter (fun r => r.idempotency_key == key)).length

/-- Per-signal risk stage of ScanPipeline.run
(src/engine/pipeline/scan_pipeline.py, the body from evaluate through
save_risk_checks and the approval gate): the verdict is computed, all its
check records are persisted under the candidate idempotency key, and only
then is the approved flag consulted. -/
def riskStage (config : RiskConfig) (state : TrackerView) (signal : Signal)
    (hours_to_resolution : ℚ) (run_id idem_key : String) (rows : List RiskRow) :
    List RiskRow × Bool :=
  let verdict := riskEngineEvaluate config state signal hours_to_resolution
  (save_risk_checks rows run_id idem_key verdict.checks, verdict.approved)

/-! Helper lemmas about the individual checks (shared across claims). -/

@[simp]
lemma kill_switch_check_name (b : Bool) : (kill_switch_check b).check_name = "kill_switch" := by
  cases b <;> rfl

@[simp]
lemma paused_check_name (b : Bool) : (paused_check b).check_name = "paused" := by
  cases b <;> rfl

@[simp]
lemma position_size_check_name (p m : ℚ) :
    (position_size_check p m).check_name = "position_size" := by
  unfold position_size_check; split <;> rfl

@[simp]
lemma trades_per_run_check_name (t m : ℕ) :
    (trades_per_run_check t m).check_name = "trades_per_run" := by
  unfold trades_per_run_check; split <;> rfl

@[simp]
lemma total_exposure_check_name (c p m : ℚ) :
    (total_exposure_check c p m).check_name = "total_exposure" := by
  simp only [total_exposure_check]; split <;> rfl

@[simp]
lemma per_city_exposure_check_name (c p m : ℚ) :
    (per_city_exposure_check c p m).check_name = "per_city_exposure" := by
  simp only [per_city_exposure_check]; split <;> rfl

@[simp]
lemma daily_loss_check_name (d m : ℚ) :
    (daily_loss_check d m).check_name = "daily_loss" := by
  unfold daily_loss_check; split <;> rfl

@[simp]
lemma cooldown_check_name (m : Option ℚ) (c : ℕ) :
    (cooldown_check m c).check_name = "cooldown" := by
  cases m with
  | none => rfl
  | some v => simp only [cooldown_check]; split <;> rfl

@[simp]
lemma time_to_resolution_check_name (h m : ℚ) :
    (time_to_resolution_check h m).check_name = "time_to_resolution" := by
  unfold time_to_resolution_check; split <;> rfl

@[simp]
lemma slippage_check_name (b a c : ℚ) : (slippage_check b a c).check_name = "slippage" := by
  simp only [slippage_check]
  split
  · rfl
  · split <;> rfl

/-- The slippage check passes exactly when the bid is positive and the
relative spread is at most the ceiling. -/
lemma slippage_check_passed_iff (bid ask ceil : ℚ) :
    (slippage_check bid ask ceil).passed = true ↔
      0 < bid ∧ (ask - bid) / bid ≤ ceil := by
  simp only [slippage_check]
  split
  · rename_i hle
    simp [not_lt.mpr hle]
  · rename_i hpos
    split
    · rename_i hgt
      simp [not_le.mpr hgt]
    · rename_i hok
      simp [not_le.mp hpos, not_lt.mp hok]

/-- Counting risk rows under a key after save_risk_checks: every inserted
row carries the key, so the count grows by the number of checks. -/
lemma riskRowsForKey_save (rows : List RiskRow) (run_id key : String)
    (checks : List RiskCheckResult) :
    riskRowsForKey (save_risk_checks rows run_id key checks) key =
      riskRowsForKey rows key + checks.length := by
  unfold riskRowsForKey save_risk_checks
  rw [List.filter_append]
  have hall : (checks.map (fun c =>
      ({ run_id := run_id, idempotency_key := key, check_name := c.check_name,
         passed := c.passed, block_reason := c.block_reason,
         detail := c.detail } : RiskRow))).filter (fun r => r.idempotency_key == key) =
      checks.map (fun c =>
      ({ run_id := run_id, idempotency_key := key, check_name := c.check_name,
         passed := c.passed, block_reason := c.block_reason,
         detail := c.detail } : RiskRow)) := by
    rw [List.filter_eq_self]
    intro a ha
    rcases List.mem_map.mp ha with ⟨c, _, rfl⟩
    simp
  rw [hall, List.length_append, List.length_map]

/-! Concrete fixtures used by counterexamples (values follow the repo's
own test fixtures in src/engine/tests/test_risk/test_engine.py). -/

/-- Risk limits at their documented defaults. -/
def fixtureRiskConfig : RiskConfig :=
  { max_position_size_usd := 5, max_trades_per_run := 3,
    max_total_exposure_usd := 25, max_per_city_exposure_usd := 10,
    max_daily_loss_usd := 10, cooldown_minutes := 30,
    min_hours_to_resolution := 6, slippage_ceiling := 1 / 20 }

/-- A quiescent tracker: flags off, no exposure, no prior trades. -/
def fixtureTracker : TrackerView :=
  { kill_switch_active := false, is_paused := false, trades_this_run := 0,
    total_exposure := 0, city_exposure := fun _ => 0, daily_loss := 0,
    minutes_since_last_trade := fun _ => none }

/-- An opportunity edge result at YES price 0.10. -/
def fixtureEdge : EdgeResult :=
  { run_id := "run1", event_id := "e1", market_id := "m1", city_slug := "nyc",
    target_date := "2026-02-11", bucket_label := "36-37F",
    bucket_probability := 26 / 100, market_price_yes := 1 / 10,
    gross_edge := 16 / 100, fee_estimate := 1 / 50, slippage_estimate := 1 / 100,
    net_edge := 13 / 100, reason_code := ReasonCode.OPPORTUNITY, sigma_used := 5 / 2 }

/-- The promoted signal for fixtureEdge. -/
def fixtureSignal : Signal :=
  { edge_result := fixtureEdge, market_id := "m1", clob_token_id_yes := "tok",
    proposed_size_usd := 5 }

/-- The signal's bucket market, with a wide real top-of-book spread:
best_bid 0.10, best_ask 0.20, so (best_ask - best_bid)/best_bid = 1. -/
def fixtureMarket : BucketMarket :=
  { market_id := "m1", condition_id := "c1", clob_token_id_yes := "tok",
    clob_token_id_no := "tokno", outcome_price_yes := 1 / 10,
    best_bid := 1 / 10, best_ask := 1 / 5, last_trade_price := 1 / 10,
    liquidity := 100, volume_24hr := 0, maker_base_fee := 0,
    taker_base_fee := 0, order_min_size := 1, accepting_orders := true,
    end_date := "2026-02-11T23:00:00+00:00", group_item_title := "36-37F",
    group_item_threshold := "", bucket := { bucket_type := BucketType.RANGE, low := 36, high := 37 } }

/-- C1 counterexample: the claim says the tenth check consumes the
BucketMarket's best_bid/best_ask and passes iff best_bid > 0 and
(best_ask - best_bid)/best_bid ≤ slippage_ceiling.  On the signal whose
market has best_bid 0.10, best_ask 0.20 and ceiling 0.05 the market's
relative spread is 1 > 0.05, yet the engine's tenth check passes, because
RiskEngine.evaluate feeds the check market_price_yes and
market_price_yes * 1.02 instead of the market's book. -/
theorem C1_counterexample_tenth_check_ignores_book :
    fixtureMarket.market_id = fixtureSignal.market_id
    ∧ fixtureMarket.outcome_price_yes = fixtureSignal.edge_result.market_price_yes
    ∧ ((riskEngineEvaluate fixtureRiskConfig fixtureTracker fixtureSignal 24).checks[9]?).map
        RiskCheckResult.passed = some true
    ∧ ¬(0 < fixtureMarket.best_bid ∧
        (fixtureMarket.best_ask - fixtureMarket.best_bid) / fixtureMarket.best_bid ≤
          fixtureRiskConfig.slippage_ceiling) := by
  have h9 : (riskEngineEvaluate fixtureRiskConfig fixtureTracker fixtureSignal 24).checks[9]? =
      some (slippage_check (1 / 10) ((1 / 10) * (51 / 50)) (1 / 20)) := rfl
  refine ⟨rfl, rfl, ?_, ?_⟩
  · have hp : (slippage_check (1 / 10) ((1 / 10) * (51 / 50)) (1 / 20)).passed = true := by
      rw [slippage_check_passed_iff]
      norm_num
    rw [h9]
    show some ((slippage_check (1 / 10) ((1 / 10) * (51 / 50)) (1 / 20)).passed) = some true
    rw [hp]
  · rintro ⟨-, h⟩
    norm_num [fixtureMarket, fixtureRiskConfig] at h

/-- C1 (amended): the tenth check of RiskEngine.evaluate is the slippage
check applied to the proxy pair (market_price_yes, market_price_yes·1.02)
and the config ceiling — the BucketMarket's best_bid/best_ask fields are
not consumed.  The check function itself passes iff best_bid > 0 and
(best_ask - best_bid)/best_bid ≤ slippage_ceiling, so the engine's tenth
check passes iff market_price_yes > 0 and 0.02 ≤ slippage_ceiling. -/
theorem C1_amended_slippage_uses_price_proxy (config : RiskConfig) (state : TrackerView)
    (signal : Signal) (hours bid ask : ℚ) :
    (riskEngineEvaluate config state signal hours).checks[9]? =
      some (slippage_check signal.edge_result.market_price_yes
        (signal.edge_result.market_price_yes * (51 / 50)) config.slippage_ceiling)
    ∧ ((slippage_check bid ask config.slippage_ceiling).passed = true ↔
        0 < bid ∧ (ask - bid) / bid ≤ config.slippage_ceiling)
    ∧ ((slippage_check signal.edge_result.market_price_yes
        (signal.edge_result.market_price_yes * (51 / 50)) config.slippage_ceiling).passed = true ↔
        0 < signal.edge_result.market_price_yes ∧
          (1 / 50 : ℚ) ≤ config.slippage_ceiling) := by
  have key : ∀ p : ℚ, 0 < p → (p * (51 / 50) - p) / p = 1 / 50 := by
    intro p hp
    have hne : p ≠ 0 := ne_of_gt hp
    field_simp
    ring
  refine ⟨rfl, slippage_check_passed_iff bid ask config.slippage_ceiling, ?_⟩
  rw [slippage_check_passed_iff]
  constructor
  · rintro ⟨hp, hs⟩
    exact ⟨hp, by rwa [key _ hp] at hs⟩
  · rintro ⟨hp, hs⟩
    exact ⟨hp, by rw [key _ hp]; exact hs⟩

/-- C3: every evaluation yields exactly the ten checks, in the fixed
source order, regardless of any failure among them (no short-circuit);
the verdict approves iff every check passed; and the per-signal pipeline
stage persists exactly ten risk rows under the candidate idempotency key
before consulting the verdict, so the count is the same whatever the
verdict. -/
theorem C3_ten_checks_fixed_order_persisted (config : RiskConfig) (state : TrackerView)
    (signal : Signal) (hours : ℚ) (run_id idem_key : String) (rows : List RiskRow) :
    (riskEngineEvaluate config state signal hours).checks.map (·.check_name) =
      ["kill_switch", "paused", "position_size", "trades_per_run", "total_exposure",
       "per_city_exposure", "daily_loss", "cooldown", "time_to_resolution", "slippage"]
    ∧ (riskEngineEvaluate config state signal hours).checks.length = 10
    ∧ ((riskEngineEvaluate config state signal hours).approved = true ↔
        ∀ c ∈ (riskEngineEvaluate config state signal hours).checks, c.passed = true)
    ∧ riskRowsForKey (riskStage config state signal hours run_id idem_key rows).1 idem_key =
        riskRowsForKey rows idem_key + 10 := by
  refine ⟨?_, rfl, ?_, ?_⟩
  · simp [riskEngineEvaluate]
  · simp only [riskEngineEvaluate]
    exact List.all_eq_true
  · simp only [riskStage]
    rw [riskRowsForKey_save]
    rfl

/-- C7: every limit check compares strictly, so equality with the limit
passes: size exactly at max_position_size_usd, exposure sums exactly at
the total and per-city ceilings, daily loss exactly at the limit, spread
exactly at the slippage ceiling (for a positive bid), hours exactly at
the minimum, and a cooldown elapsed of exactly cooldown_minutes. -/
theorem C7_boundary_equality_passes (limit cur prop ccur loss hrs bid ceil : ℚ)
    (cdm : ℕ) (hbid : 0 < bid) :
    (position_size_check limit limit).passed = true
    ∧ (total_exposure_check cur prop (cur + prop)).passed = true
    ∧ (per_city_exposure_check ccur prop (ccur + prop)).passed = true
    ∧ (daily_loss_check loss loss).passed = true
    ∧ (slippage_check bid (bid + bid * ceil) ceil).passed = true
    ∧ (time_to_resolution_check hrs hrs).passed = true
    ∧ (cooldown_check (some ((cdm : ℚ))) cdm).passed = true := by
  have hne : bid ≠ 0 := ne_of_gt hbid
  refine ⟨?_, ?_, ?_, ?_, ?_, ?_, ?_⟩
  · simp only [position_size_check]
    rw [if_neg (lt_irrefl limit)]
  · simp only [total_exposure_check]
    rw [if_neg (lt_irrefl (cur + prop))]
  · simp only [per_city_exposure_check]
    rw [if_neg (lt_irrefl (ccur + prop))]
  · simp only [daily_loss_check]
    rw [if_neg (lt_irrefl loss)]
  · rw [slippage_check_passed_iff]
    refine ⟨hbid, le_of_eq ?_⟩
    field_simp
  · simp only [time_to_resolution_check]
    rw [if_neg (lt_irrefl hrs)]
  · simp only [cooldown_check]
    rw [if_neg (lt_irrefl ((cdm : ℚ)))]

/-- C7 witness: the boundary theorem instantiated at the default limits
(size 5, exposures 20+5 and 5+5, loss 10, bid 0.10 with ceiling 0.05,
6 hours, 30 minutes). -/
theorem C7_boundary_witness :
    (0 : ℚ) < 1 / 10
    ∧ ((position_size_check 5 5).passed = true
      ∧ (total_exposure_check 20 5 (20 + 5)).passed = true
      ∧ (per_city_exposure_check 5 5 (5 + 5)).passed = true
      ∧ (daily_loss_check 10 10).passed = true
      ∧ (slippage_check (1 / 10) (1 / 10 + 1 / 10 * (1 / 20)) (1 / 20)).passed = true
      ∧ (time_to_resolution_check 6 6).passed = true
      ∧ (cooldown_check (some ((30 : ℕ) : ℚ)) 30).passed = true) :=
  ⟨by norm_num,
   C7_boundary_equality_passes 5 20 5 5 10 6 (1 / 10) (1 / 20) 30 (by norm_num)⟩

/-! Execution model: idempotency keys, order store, executor, exit order
path (src/engine/execution/ and src/engine/pipeline/exit_pipeline.py). -/

/-- Order result statuses, from src/engine/models/execution.py (OrderStatus). -/
inductive OrderStatus
  | PENDING
  | DRY_RUN
  | SUBMITTED
  | FILLED
  | REJECTED
  | FAILED
  | DUPLICATE
deriving Repr, DecidableEq

/-- Pre-execution order record, from src/engine/models/execution.py
(OrderIntent). -/
structure OrderIntent where
  run_id : String
  idempotency_key : String
  market_id : String
  clob_token_id : String
  side : String
  price : ℚ
  size_usd : ℚ
  city_slug : String
  target_date : String
  bucket_label : String
  net_edge : ℚ
deriving Repr, DecidableEq

/-- Execution outcome record, from src/engine/models/execution.py
(OrderResult).  executed_at (utc_now_iso) is threaded in as a parameter
where results are built. -/
structure OrderResult where
  idempotency_key : String
  status : OrderStatus
  fill_price : Option ℚ
  fill_size : Option ℚ
  error_message : String
  executed_at : String
deriving Repr, DecidableEq

/-- src/engine/execution/idempotency.py, generate_idempotency_key: the
four fields joined with an unescaped pipe separator, then hashed.
SHA-256-and-truncate-to-32-hex is abstracted as the hash parameter and
the Python %.4f price formatting as the fmt parameter; the claims about
this function concern only the raw joined string. -/
def generate_idempotency_key (hash : String → String) (fmt : ℚ → String)
    (run_id market_id side : String) (price : ℚ) : String :=
  hash (run_id ++ "|" ++ market_id ++ "|" ++ side ++ "|" ++ fmt price)

/-- The durable order tables plus the kill-switch flag the executor
consults: order_intents and order_results rows
(src/engine/storage/order_repo.py; each save commits immediately) and
system_state.kill_switch (src/engine/storage/state_repo.py). -/
structure OrderStore where
  intents : List OrderIntent
  results : List OrderResult
  kill_switch_active : Bool
deriving Repr, DecidableEq

/-- src/engine/execution/idempotency.py, IdempotencyChecker.is_duplicate:
does an order_intents row with this key exist. -/
def is_duplicate (s : OrderStore) (key : String) : Bool :=
  s.intents.any (fun i => i.idempotency_key == key)

/-- Number of order_intents rows under a key. -/
def intentRowsForKey (s : OrderStore) (key : String) : ℕ :=
  (s.intents.filter (fun i => i.idempotency_key == key)).length

/-- Number of order_results rows under a key. -/
def resultRowsForKey (s : OrderStore) (key : String) : ℕ :=
  (s.results.filter (fun r => r.idempotency_key == key)).length

/-- src/engine/execution/executor.py, Executor.execute.  The adapter is a
function returning Except: ok r models a returned OrderResult, error e an
exception raised by the adapter (trapped by the executor's try/except and
converted to FAILED).  The third component of the return value records
whether step 4 dispatched to the adapter at all. -/
def executorExecute (adapter : OrderIntent → Except String OrderResult) (now : String)
    (s : OrderStore) (intent : OrderIntent) : OrderResult × OrderStore × Bool :=
  if s.kill_switch_active then
    ({ idempotency_key := intent.idempotency_key, status := OrderStatus.REJECTED,
       fill_price := none, fill_size := none,
       error_message := "Kill switch active at executor level", executed_at := now },
     s, false)
  else if is_duplicate s intent.idempotency_key then
    ({ idempotency_key := intent.idempotency_key, status := OrderStatus.DUPLICATE,
       fill_price := none, fill_size := none,
       error_message := "Duplicate idempotency key", executed_at := now },
     s, false)
  else
    let s1 : OrderStore := { s with intents := s.intents ++ [intent] }
    let result : OrderResult :=
      match adapter intent with
      | Except.ok r => r
      | Except.error e =>
        { idempotency_key := intent.idempotency_key, status := OrderStatus.FAILED,
          fill_price := none, fill_size := none,
          error_message := e, executed_at := now }
    (result, { s1 with results := s1.results ++ [result] }, true)

/-- src/engine/execution/dry_run.py, DryRunAdapter.execute: a simulated
fill at the intent price, never raising. -/
def dryRunAdapterExec (now : String) (intent : OrderIntent) : Except String OrderResult :=
  Except.ok
    { idempotency_key := intent.idempotency_key, status := OrderStatus.DRY_RUN,
      fill_price := some intent.price, fill_size := some intent.size_usd,
      error_message := "", executed_at := now }

/-- One open-position row as read by the exit pipeline
(position_repo.get_open_positions_with_ids). -/
structure PositionRow where
  id : ℕ
  market_id : String
  city_slug : String
  target_date : String
  bucket_label : String
  entry_price : ℚ
  size_usd : ℚ
deriving Repr, DecidableEq

/-- Execution mode, from src/engine/config/schema.py (ExecutionMode). -/
inductive ExecutionMode
  | DRY_RUN
  | LIVE
deriving Repr, DecidableEq

/-- Outcome of ExitPipeline._execute_exit: either a returned OrderResult
or an exception escaping the method; in both cases the store as the
method leaves it (order_repo writes commit immediately). -/
inductive ExitOutcome
  | normal (r : OrderResult) (s : OrderStore)
  | exception (message : String) (s : OrderStore)
deriving Repr, DecidableEq

/-- src/engine/pipeline/exit_pipeline.py, ExitPipeline._execute_exit.
sellAdapter models LiveAdapter().execute_sell applied to (market_id,
shares, idem_key): ok r is a returned result (execute_sell itself maps a
SimmerClientError to a FAILED result internally), error e is an exception
escaping the adapter — e.g. SimmerClient() construction raising when
SIMMER_API_KEY is unset, or a non-SimmerClientError raised during the
call (such as JSON decoding of the trade response).  _execute_exit has no
try/except: after save_order_intent such an exception propagates before
save_order_result runs. -/
def exitExecuteExit (mode : ExecutionMode)
    (sellAdapter : String → ℚ → String → Except String OrderResult)
    (hash : String → String) (fmt : ℚ → String) (now run_id : String)
    (s : OrderStore) (pos : PositionRow) (shares current_price : ℚ) : ExitOutcome :=
  let idem_key := generate_idempotency_key hash fmt run_id pos.market_id "SELL" current_price
  if is_duplicate s idem_key then
    ExitOutcome.normal
      { idempotency_key := idem_key, status := OrderStatus.DUPLICATE,
        fill_price := none, fill_size := none,
        error_message := "Duplicate exit order", executed_at := now } s
  else
    let intent : OrderIntent :=
      { run_id := run_id, idempotency_key := idem_key, market_id := pos.market_id,
        clob_token_id := "", side := "SELL", price := current_price,
        size_usd := pos.size_usd, city_slug := pos.city_slug,
        target_date := pos.target_date, bucket_label := pos.bucket_label,
        net_edge := current_price - pos.entry_price }
    let s1 : OrderStore := { s with intents := s.intents ++ [intent] }
    match mode with
    | ExecutionMode.DRY_RUN =>
      let r : OrderResult :=
        { idempotency_key := idem_key, status := OrderStatus.DRY_RUN,
          fill_price := some current_price, fill_size := some shares,
          error_message := "", executed_at := now }
      ExitOutcome.normal r { s1 with results := s1.results ++ [r] }
    | ExecutionMode.LIVE =>
      match sellAdapter pos.market_id shares idem_key with
      | Except.ok r => ExitOutcome.normal r { s1 with results := s1.results ++ [r] }
      | Except.error e => ExitOutcome.exception e s1

/-- Appending one matching element grows a filtered count by one. -/
lemma filter_length_append_singleton {α : Type} (l : List α) (x : α) (p : α → Bool)
    (hx : p x = true) : ((l ++ [x]).filter p).length = (l.filter p).length + 1 := by
  simp [List.filter_append, hx]

/-- A fresh, kill-switch-off execution: the intent is persisted, the
adapter outcome (returned result, or exception converted to FAILED)
is persisted as the single result, and the result carries the intent's
key whenever the adapter preserves keys. -/
lemma executorExecute_fresh (adapter : OrderIntent → Except String OrderResult)
    (now : String) (s : OrderStore) (intent : OrderIntent)
    (hk : ∀ i r, adapter i = Except.ok r → r.idempotency_key = i.idempotency_key)
    (hks : s.kill_switch_active = false)
    (hfresh : is_duplicate s intent.idempotency_key = false) :
    ∃ res : OrderResult, res.idempotency_key = intent.idempotency_key ∧
      executorExecute adapter now s intent =
        (res, { intents := s.intents ++ [intent], results := s.results ++ [res],
                kill_switch_active := s.kill_switch_active }, true) := by
  cases hadap : adapter intent with
  | error e =>
    refine ⟨{ idempotency_key := intent.idempotency_key, status := OrderStatus.FAILED,
              fill_price := none, fill_size := none, error_message := e,
              executed_at := now }, rfl, ?_⟩
    simp [executorExecute, hks, hfresh, hadap]
  | ok r =>
    refine ⟨r, hk _ _ hadap, ?_⟩
    simp [executorExecute, hks, hfresh, hadap]

/-- A store representing the state between the two calls of C4's
counterexample: the first submission's rows exist and the kill switch has
been flipped on. -/
def fixtureKilledStore : OrderStore :=
  { intents := [{ run_id := "run1", idempotency_key := "key1", market_id := "m1",
                  clob_token_id := "tok", side := "BUY", price := 1 / 10,
                  size_usd := 5, city_slug := "nyc", target_date := "2026-02-11",
                  bucket_label := "36-37F", net_edge := 13 / 100 }],
    results := [{ idempotency_key := "key1", status := OrderStatus.DRY_RUN,
                  fill_price := some (1 / 10), fill_size := some 5,
                  error_message := "", executed_at := "t0" }],
    kill_switch_active := true }

/-- The intent resubmitted against fixtureKilledStore (same key). -/
def fixtureResubmitIntent : OrderIntent :=
  { run_id := "run1", idempotency_key := "key1", market_id := "m1",
    clob_token_id := "tok", side := "BUY", price := 1 / 10, size_usd := 5,
    city_slug := "nyc", target_date := "2026-02-11", bucket_label := "36-37F",
    net_edge := 13 / 100 }

/-- C4 counterexample: an intent whose key already exists is NOT always
answered with DUPLICATE — the executor checks the kill switch first, so
with the switch active the duplicate submission returns REJECTED. -/
theorem C4_counterexample_kill_switch_precedes_duplicate :
    is_duplicate fixtureKilledStore fixtureResubmitIntent.idempotency_key = true
    ∧ (executorExecute (dryRunAdapterExec "t1") "t1" fixtureKilledStore
        fixtureResubmitIntent).1.status = OrderStatus.REJECTED
    ∧ OrderStatus.REJECTED ≠ OrderStatus.DUPLICATE := by
  refine ⟨by decide, by decide, by decide⟩

/-- C4 (amended): with the kill switch inactive, a duplicate key returns
DUPLICATE and the executor writes no intent row, no result row, and never
dispatches to the adapter (with the switch active it is REJECTED, likewise
without writes).  Submitting a fresh intent and then the same intent again
leaves exactly one intent row and one result row under the key; the second
call returns DUPLICATE, changes nothing and does not call the adapter. -/
theorem C4_amended_duplicate_short_circuit
    (adapter : OrderIntent → Except String OrderResult) (now : String)
    (s : OrderStore) (intent : OrderIntent)
    (hk : ∀ i r, adapter i = Except.ok r → r.idempotency_key = i.idempotency_key)
    (hks : s.kill_switch_active = false) :
    (is_duplicate s intent.idempotency_key = true →
      (executorExecute adapter now s intent).1.status = OrderStatus.DUPLICATE
      ∧ (executorExecute adapter now s intent).2.1 = s
      ∧ (executorExecute adapter now s intent).2.2 = false)
    ∧ (is_duplicate s intent.idempotency_key = false →
       resultRowsForKey s intent.idempotency_key = 0 →
      intentRowsForKey s intent.idempotency_key = 0
      ∧ intentRowsForKey (executorExecute adapter now s intent).2.1
          intent.idempotency_key = 1
      ∧ resultRowsForKey (executorExecute adapter now s intent).2.1
          intent.idempotency_key = 1
      ∧ (executorExecute adapter now ((executorExecute adapter now s intent).2.1)
          intent).1.status = OrderStatus.DUPLICATE
      ∧ (executorExecute adapter now ((executorExecute adapter now s intent).2.1)
          intent).2.1 = (executorExecute adapter now s intent).2.1
      ∧ (executorExecute adapter now ((executorExecute adapter now s intent).2.1)
          intent).2.2 = false) := by
  constructor
  · intro hdup
    refine ⟨?_, ?_, ?_⟩ <;> simp [executorExecute, hks, hdup]
  · intro hfresh hres0
    obtain ⟨res, hkey, hexec⟩ := executorExecute_fresh adapter now s intent hk hks hfresh
    rw [hks] at hexec
    have hmem : ∀ i ∈ s.intents, ¬(i.idempotency_key == intent.idempotency_key) = true := by
      have := hfresh
      unfold is_duplicate at this
      exact fun i hi => List.any_eq_false.mp this i hi
    have h0 : intentRowsForKey s intent.idempotency_key = 0 := by
      unfold intentRowsForKey
      rw [List.filter_eq_nil_iff.mpr hmem]
      rfl
    have hdup1 : is_duplicate
        ({ intents := s.intents ++ [intent], results := s.results ++ [res],
           kill_switch_active := false } : OrderStore)
        intent.idempotency_key = true := by
      simp [is_duplicate]
    refine ⟨h0, ?_, ?_, ?_, ?_, ?_⟩
    · rw [hexec]
      unfold intentRowsForKey at h0 ⊢
      rw [filter_length_append_singleton _ _ _ (by simp), h0]
    · rw [hexec]
      unfold resultRowsForKey at hres0 ⊢
      rw [filter_length_append_singleton _ _ _ (by simp [hkey]), hres0]
    · rw [hexec]
      simp [executorExecute, hdup1]
    · rw [hexec]
      simp [executorExecute, hdup1]
    · rw [hexec]
      simp [executorExecute, hdup1]

/-- C4 witness: the amended theorem at a fresh empty store with the
dry-run adapter — one intent row after the first call, DUPLICATE on the
second. -/
theorem C4_amended_witness :
    intentRowsForKey
      (executorExecute (dryRunAdapterExec "t1") "t1"
        ({ intents := [], results := [], kill_switch_active := false } : OrderStore)
        fixtureResubmitIntent).2.1 fixtureResubmitIntent.idempotency_key = 1
    ∧ (executorExecute (dryRunAdapterExec "t1") "t1"
        ((executorExecute (dryRunAdapterExec "t1") "t1"
          ({ intents := [], results := [], kill_switch_active := false } : OrderStore)
          fixtureResubmitIntent).2.1) fixtureResubmitIntent).1.status =
      OrderStatus.DUPLICATE := by
  have h := C4_amended_duplicate_short_circuit (dryRunAdapterExec "t1") "t1"
    ({ intents := [], results := [], kill_switch_active := false } : OrderStore)
    fixtureResubmitIntent
    (by
      intro i r hir
      injection hir with h2
      rw [← h2])
    rfl
  have h2 := h.2 (by decide) (by decide)
  exact ⟨h2.2.1, h2.2.2.2.1⟩

/-- Identity stand-in for the hash in concrete exit fixtures: the
collision and persistence facts hold for every hash, and a transparent
one keeps the fixture computable. -/
def hashIdentity : String → String := fun s => s

/-- Constant stand-in for %.4f formatting of the concrete exit price
0.5500 used by the C5 fixture. -/
def fmtExitPrice : ℚ → String := fun _ => "0.5500"

/-- The open position of C5's failing run. -/
def fixturePosition : PositionRow :=
  { id := 1, market_id := "m1", city_slug := "nyc", target_date := "2026-02-11",
    bucket_label := "36-37F", entry_price := 1 / 10, size_usd := 5 }

/-- A live sell adapter whose call raises an exception that is not a
SimmerClientError-mapped result: nothing converts it to FAILED inside
_execute_exit. -/
def throwingSellAdapter : String → ℚ → String → Except String OrderResult :=
  fun _ _ _ => Except.error "SIMMER_API_KEY not set"

/-- The SELL intent _execute_exit persists for fixturePosition at price
0.55 in run run-exit-1 (key under the identity hash). -/
def strandedExitIntent : OrderIntent :=
  { run_id := "run-exit-1", idempotency_key := "run-exit-1|m1|SELL|0.5500",
    market_id := "m1", clob_token_id := "", side := "SELL", price := 11 / 20,
    size_usd := 5, city_slug := "nyc", target_date := "2026-02-11",
    bucket_label := "36-37F", net_edge := 11 / 20 - 1 / 10 }

/-- C5 failing evaluation: in live mode, when the sell adapter raises, the
exit pipeline has already persisted the SELL intent and the exception
escapes _execute_exit before any result is written — the store ends with
one intent row and zero result rows under the key, violating the
one-result-per-intent invariant. -/
theorem C5_bug_live_exit_strands_intent :
    exitExecuteExit ExecutionMode.LIVE throwingSellAdapter hashIdentity fmtExitPrice
      "t1" "run-exit-1" ({ intents := [], results := [], kill_switch_active := false } : OrderStore)
      fixturePosition 50 (11 / 20) =
      ExitOutcome.exception "SIMMER_API_KEY not set"
        ({ intents := [strandedExitIntent], results := [],
           kill_switch_active := false } : OrderStore)
    ∧ intentRowsForKey
        ({ intents := [strandedExitIntent], results := [],
           kill_switch_active := false } : OrderStore)
        strandedExitIntent.idempotency_key = 1
    ∧ resultRowsForKey
        ({ intents := [strandedExitIntent], results := [],
           kill_switch_active := false } : OrderStore)
        strandedExitIntent.idempotency_key = 0 := by
  refine ⟨rfl, by decide, by decide⟩

/-- C10: the idempotency fingerprint joins its fields with an unescaped
pipe, so the distinct tuples (run_id, market_id) = ("a|b", "c") and
("a", "b|c") — same side, same price — produce the identical raw string
and hence the identical key, for every hash and price formatting: the key
function is not injective. -/
theorem C10_pipe_separator_collision (hash : String → String) (fmt : ℚ → String) (price : ℚ) :
    (("a|b", "c") ≠ (("a" : String), ("b|c" : String)))
    ∧ generate_idempotency_key hash fmt "a|b" "c" "BUY" price =
      generate_idempotency_key hash fmt "a" "b|c" "BUY" price := by
  refine ⟨by decide, ?_⟩
  unfold generate_idempotency_key
  exact congrArg (fun z => hash (z ++ fmt price)) (by decide)

/-! Cycle orchestration (src/engine/pipeline/scan_pipeline.py) as a stage
trace, and the signal generation module (src/engine/signal/). -/

/-- The stages a cycle can perform.  exitSweep stands for running
ExitPipeline over open positions (mark-to-market plus exit orders). -/
inductive PipelineStage
  | initStage
  | configSnapshot
  | runStart
  | controlFlagGate
  | ingestMarkets
  | ingestForecasts
  | signalGeneration
  | riskAndExecution
  | reportAndSummary
  | runRecordComplete
  | exitSweep
deriving Repr, DecidableEq

/-- The stage trace of ScanPipeline.run on its successful path, transcribed
from src/engine/pipeline/scan_pipeline.py top to bottom: connect and
migrate, snapshot config, create the run row, check kill switch and pause,
ingest markets (step 2), ingest forecasts (step 3), signal generation
(step 4), per-signal risk and execution (step 5), report (step 6), and
complete the run record.  ExitPipeline is referenced nowhere in the
repository outside its own module and its test file — in particular
ScanPipeline.run, cli.py and daemon.py never construct or call it. -/
def scanPipelineStages : List PipelineStage :=
  [ PipelineStage.initStage, PipelineStage.configSnapshot, PipelineStage.runStart,
    PipelineStage.controlFlagGate, PipelineStage.ingestMarkets,
    PipelineStage.ingestForecasts, PipelineStage.signalGeneration,
    PipelineStage.riskAndExecution, PipelineStage.reportAndSummary,
    PipelineStage.runRecordComplete ]

/-- Per-strategy parameters, from src/engine/config/schema.py
(StrategyConfig). -/
structure StrategyConfig where
  min_edge_threshold : ℚ
  max_entry_price : ℚ
  min_exit_price : ℚ
  uncertainty_base_f : ℚ
  uncertainty_per_day_f : ℚ
  fee_estimate : ℚ
  slippage_estimate : ℚ
deriving Repr, DecidableEq

/-- One NOAA forecast period, from src/engine/models/forecast.py
(ForecastPeriod). -/
structure ForecastPeriod where
  name : String
  start_time : String
  end_time : String
  temperature : ℤ
  temperature_unit : String
  is_daytime : Bool
  short_forecast : String
deriving Repr, DecidableEq

/-- Forecast for one city and date, from src/engine/models/forecast.py
(ForecastPoint). -/
structure ForecastPoint where
  city_slug : String
  target_date : String
  high_temp_f : ℤ
  source_generated_at : String
  fetched_at : String
  raw_periods : List ForecastPeriod
deriving Repr, DecidableEq

/-- src/engine/signal/edge_calculator.py, compute_edge.  The parameter the
Python code calls bucket_probability is named bucket_prob here, to keep
the name bucket_probability for the probability function itself. -/
def compute_edge (run_id event_id market_id city_slug target_date bucket_label : String)
    (bucket_prob market_price_yes fee_estimate slippage_estimate sigma_used
      min_edge_threshold max_entry_price : ℚ)
    (accepting_orders : Bool) (liquidity : ℚ) : EdgeResult :=
  let gross_edge := bucket_prob - market_price_yes
  let net_edge := gross_edge - fee_estimate - slippage_estimate
  let reason :=
    if accepting_orders = false then ReasonCode.NOT_ACCEPTING_ORDERS
    else if liquidity ≤ 0 then ReasonCode.ZERO_LIQUIDITY
    else if market_price_yes > max_entry_price then ReasonCode.PRICE_ABOVE_MAX_ENTRY
    else if net_edge < 0 then ReasonCode.NEGATIVE_EDGE
    else if net_edge < min_edge_threshold then ReasonCode.EDGE_BELOW_THRESHOLD
    else ReasonCode.OPPORTUNITY
  { run_id := run_id, event_id := event_id, market_id := market_id,
    city_slug := city_slug, target_date := target_date, bucket_label := bucket_label,
    bucket_probability := bucket_prob, market_price_yes := market_price_yes,
    gross_edge := gross_edge, fee_estimate := fee_estimate,
    slippage_estimate := slippage_estimate, net_edge := net_edge,
    reason_code := reason, sigma_used := sigma_used }

/-- The per-bucket body of SignalGenerator.generate
(src/engine/signal/signal_generator.py): if the event has no matched
forecast, a zero-filled NO_FORECAST_AVAILABLE record is appended for the
bucket; otherwise compute_edge runs on the bucket probability.  sigma
(compute_sigma, which reads the wall clock) and prob (bucket_probability,
the transcendental normal-CDF computation) are threaded in as the values
the code computes for this bucket. -/
def generateForBucket (cfgS : StrategyConfig)
    (run_id event_id city_slug target_date : String)
    (forecast : Option ForecastPoint) (sigma prob : ℚ) (bm : BucketMarket) : EdgeResult :=
  match forecast with
  | none =>
    { run_id := run_id, event_id := event_id, market_id := bm.market_id,
      city_slug := city_slug, target_date := target_date,
      bucket_label := bm.group_item_title, bucket_probability := 0,
      market_price_yes := bm.outcome_price_yes, gross_edge := 0,
      fee_estimate := 0, slippage_estimate := 0, net_edge := 0,
      reason_code := ReasonCode.NO_FORECAST_AVAILABLE, sigma_used := 0 }
  | some _ =>
    compute_edge run_id event_id bm.market_id city_slug target_date
      bm.group_item_title prob bm.outcome_price_yes cfgS.fee_estimate
      cfgS.slippage_estimate sigma cfgS.min_edge_threshold cfgS.max_entry_price
      bm.accepting_orders bm.liquidity

/-- The reason cascade exactly as claim C6 words it: NO_FORECAST_AVAILABLE
first, then NOT_ACCEPTING_ORDERS, ZERO_LIQUIDITY, PRICE_ABOVE_MAX_ENTRY,
NEGATIVE_EDGE, EDGE_BELOW_THRESHOLD, else OPPORTUNITY. -/
def claimedEdgeReason (hasForecast accepting : Bool)
    (liquidity price_yes net max_entry min_thresh : ℚ) : ReasonCode :=
  if hasForecast = false then ReasonCode.NO_FORECAST_AVAILABLE
  else if accepting = false then ReasonCode.NOT_ACCEPTING_ORDERS
  else if liquidity ≤ 0 then ReasonCode.ZERO_LIQUIDITY
  else if price_yes > max_entry then ReasonCode.PRICE_ABOVE_MAX_ENTRY
  else if net < 0 then ReasonCode.NEGATIVE_EDGE
  else if net < min_thresh then ReasonCode.EDGE_BELOW_THRESHOLD
  else ReasonCode.OPPORTUNITY

/-- Strategy parameters at their documented defaults. -/
def fixtureStrategy : StrategyConfig :=
  { min_edge_threshold := 1 / 20, max_entry_price := 3 / 20,
    min_exit_price := 9 / 20, uncertainty_base_f := 5 / 2,
    uncertainty_per_day_f := 1 / 2, fee_estimate := 1 / 50,
    slippage_estimate := 1 / 100 }

/-- C2 (code defect): the cycle orchestrator performs no exit pass at all.
The stage trace of ScanPipeline.run reaches the run record directly after
the per-signal risk/execution and report stages; exitSweep appears
nowhere, although ExitPipeline's own docstring says it runs after the
entry scan in each cycle and the spec orders (Exit pass) before (Run
record). -/
theorem C2_bug_no_exit_pass_in_cycle :
    scanPipelineStages =
      [ PipelineStage.initStage, PipelineStage.configSnapshot, PipelineStage.runStart,
        PipelineStage.controlFlagGate, PipelineStage.ingestMarkets,
        PipelineStage.ingestForecasts, PipelineStage.signalGeneration,
        PipelineStage.riskAndExecution, PipelineStage.reportAndSummary,
        PipelineStage.runRecordComplete ]
    ∧ PipelineStage.exitSweep ∉ scanPipelineStages := by
  exact ⟨rfl, by decide⟩

/-- C6 counterexample: a bucket market with no matched forecast is
analyzed into a record whose reason is NO_FORECAST_AVAILABLE but whose
recorded gross edge is 0 while probability − price_yes = 0 − 0.10 ≠ 0:
the claimed equation gross = probability − price_yes fails on it. -/
theorem C6_counterexample_no_forecast_record :
    (generateForBucket fixtureStrategy "run1" "e1" "nyc" "2026-02-11" none 0 0
      fixtureMarket).reason_code = ReasonCode.NO_FORECAST_AVAILABLE
    ∧ (generateForBucket fixtureStrategy "run1" "e1" "nyc" "2026-02-11" none 0 0
        fixtureMarket).market_price_yes = 1 / 10
    ∧ (generateForBucket fixtureStrategy "run1" "e1" "nyc" "2026-02-11" none 0 0
        fixtureMarket).gross_edge ≠
      (generateForBucket fixtureStrategy "run1" "e1" "nyc" "2026-02-11" none 0 0
          fixtureMarket).bucket_probability -
        (generateForBucket fixtureStrategy "run1" "e1" "nyc" "2026-02-11" none 0 0
            fixtureMarket).market_price_yes := by
  refine ⟨rfl, rfl, ?_⟩
  show (0 : ℚ) ≠ (0 : ℚ) - 1 / 10
  norm_num

/-- C6 (amended): for a bucket market with a matched forecast the record
satisfies gross = probability − price_yes and net = gross − fee − slip,
and its reason follows the claimed cascade; for a market with no matched
forecast the reason is NO_FORECAST_AVAILABLE (the first rule of the
cascade) but the record is zero-filled — probability, gross, net, fee and
slip are all stored as 0 with the market price kept, so the gross
equation holds there only when price_yes = 0. -/
theorem C6_amended_edge_equations (cfgS : StrategyConfig)
    (run_id event_id city_slug target_date : String) (f : ForecastPoint)
    (sigma prob : ℚ) (bm : BucketMarket) :
    ((generateForBucket cfgS run_id event_id city_slug target_date (some f) sigma prob
        bm).bucket_probability = prob
    ∧ (generateForBucket cfgS run_id event_id city_slug target_date (some f) sigma prob
        bm).market_price_yes = bm.outcome_price_yes
    ∧ (generateForBucket cfgS run_id event_id city_slug target_date (some f) sigma prob
        bm).gross_edge = prob - bm.outcome_price_yes
    ∧ (generateForBucket cfgS run_id event_id city_slug target_date (some f) sigma prob
        bm).net_edge = (prob - bm.outcome_price_yes) - cfgS.fee_estimate -
          cfgS.slippage_estimate
    ∧ (generateForBucket cfgS run_id event_id city_slug target_date (some f) sigma prob
        bm).reason_code =
      claimedEdgeReason true bm.accepting_orders bm.liquidity bm.outcome_price_yes
        ((prob - bm.outcome_price_yes) - cfgS.fee_estimate - cfgS.slippage_estimate)
        cfgS.max_entry_price cfgS.min_edge_threshold)
    ∧ ((generateForBucket cfgS run_id event_id city_slug target_date none sigma prob
        bm).reason_code = ReasonCode.NO_FORECAST_AVAILABLE
    ∧ (generateForBucket cfgS run_id event_id city_slug target_date none sigma prob
        bm).reason_code =
      claimedEdgeReason false bm.accepting_orders bm.liquidity bm.outcome_price_yes 0
        cfgS.max_entry_price cfgS.min_edge_threshold
    ∧ (generateForBucket cfgS run_id event_id city_slug target_date none sigma prob
        bm).bucket_probability = 0
    ∧ (generateForBucket cfgS run_id event_id city_slug target_date none sigma prob
        bm).gross_edge = 0
    ∧ (generateForBucket cfgS run_id event_id city_slug target_date none sigma prob
        bm).net_edge = 0
    ∧ (generateForBucket cfgS run_id event_id city_slug target_date none sigma prob
        bm).fee_estimate = 0
    ∧ (generateForBucket cfgS run_id event_id city_slug target_date none sigma prob
        bm).slippage_estimate = 0
    ∧ (generateForBucket cfgS run_id event_id city_slug target_date none sigma prob
        bm).market_price_yes = bm.outcome_price_yes) := by
  refine ⟨⟨rfl, rfl, rfl, rfl, ?_⟩, rfl, ?_, rfl, rfl, rfl, rfl, rfl, rfl⟩
  · rfl
  · rfl

/-! Bucket probability (src/engine/signal/probability.py) and the daemon
loop backoff (src/engine/daemon.py). -/

/-- src/engine/signal/probability.py, bucket_probability.  scipy's
norm.cdf — the standard normal CDF Φ — is abstracted as the phi
parameter (it is the only transcendental ingredient; every claim about
this function is symbolic in Φ).  The σ ≤ 0 ValueError is Except.error;
the Python error text interpolates σ, which is not reproduced. -/
def bucket_probability (phi : ℚ → ℚ) (bucket : TemperatureBucket) (mu sigma : ℚ) :
    Except String ℚ :=
  if sigma ≤ 0 then Except.error "sigma must be positive"
  else
    match bucket.bucket_type with
    | BucketType.RANGE =>
      Except.ok (phi (((bucket.high : ℚ) + 1 / 2 - mu) / sigma) -
        phi (((bucket.low : ℚ) - 1 / 2 - mu) / sigma))
    | BucketType.EXACT =>
      Except.ok (phi (((bucket.low : ℚ) + 1 / 2 - mu) / sigma) -
        phi (((bucket.low : ℚ) - 1 / 2 - mu) / sigma))
    | BucketType.OR_HIGHER =>
      Except.ok (1 - phi (((bucket.low : ℚ) - 1 / 2 - mu) / sigma))
    | BucketType.OR_BELOW =>
      Except.ok (phi (((bucket.low : ℚ) + 1 / 2 - mu) / sigma))

/-- The four formulas exactly as claim C8 states them, with t the stored
low bound for exact / or_higher / or_below buckets: range(low,high) ↦
Φ((high+0.5−μ)/σ) − Φ((low−0.5−μ)/σ); exact(t) ↦ Φ((t+0.5−μ)/σ) −
Φ((t−0.5−μ)/σ); or_higher(t) ↦ 1 − Φ((t−0.5−μ)/σ); or_below(t) ↦
Φ((t+0.5−μ)/σ). -/
def claimedBucketFormula (phi : ℚ → ℚ) (bucket : TemperatureBucket) (mu sigma : ℚ) : ℚ :=
  match bucket.bucket_type with
  | BucketType.RANGE =>
    phi (((bucket.high : ℚ) + 1 / 2 - mu) / sigma) -
      phi (((bucket.low : ℚ) - 1 / 2 - mu) / sigma)
  | BucketType.EXACT =>
    phi (((bucket.low : ℚ) + 1 / 2 - mu) / sigma) -
      phi (((bucket.low : ℚ) - 1 / 2 - mu) / sigma)
  | BucketType.OR_HIGHER =>
    1 - phi (((bucket.low : ℚ) - 1 / 2 - mu) / sigma)
  | BucketType.OR_BELOW =>
    phi (((bucket.low : ℚ) + 1 / 2 - mu) / sigma)

/-- C8: for every σ ≤ 0 bucket_probability raises (an error value), and
for σ > 0 it returns exactly the claimed Φ-formula for each of the four
bucket shapes. -/
theorem C8_bucket_probability_formulas (phi : ℚ → ℚ) (bucket : TemperatureBucket)
    (mu sigma : ℚ) :
    bucket_probability phi bucket mu sigma =
      if sigma ≤ 0 then Except.error "sigma must be positive"
      else Except.ok (claimedBucketFormula phi bucket mu sigma) := by
  obtain ⟨bt, lo, hi, u⟩ := bucket
  unfold bucket_probability claimedBucketFormula
  split
  · rfl
  · cases bt <;> rfl

/-- MAX_BACKOFF from src/engine/daemon.py: 600 seconds (10 minutes). -/
def MAX_BACKOFF : ℕ := 600

/-- One iteration of ScanDaemon._loop's wait computation
(src/engine/daemon.py): on success the consecutive-failures counter
resets to 0 and the wait is the interval; on failure the counter is
incremented first and the wait is min(interval · 2^counter, MAX_BACKOFF).
(The loop then sleeps max(0, wait − elapsed) in 1-second increments; the
claim concerns the computed wait.) -/
def daemonLoopStep (interval consecutive_failures : ℕ) (success : Bool) : ℕ × ℕ :=
  if success then (0, interval)
  else
    let k := consecutive_failures + 1
    (k, min (interval * 2 ^ k) MAX_BACKOFF)

/-- Counter and last computed wait after k consecutive failed cycles
starting from the post-success state (counter 0, wait interval). -/
def daemonFailStreak (interval : ℕ) : ℕ → ℕ × ℕ
  | 0 => (0, interval)
  | k + 1 => daemonLoopStep interval (daemonFailStreak interval k).1 false

/-- C9: a successful cycle resets the counter to 0 with wait = interval,
after the (k+1)-th consecutive failed cycle the wait is
min(interval · 2^(k+1), 600 s), and that backoff never exceeds 600 s
(10 minutes). -/
theorem C9_backoff_doubles_capped (interval k c : ℕ) :
    daemonLoopStep interval c true = (0, interval)
    ∧ daemonFailStreak interval (k + 1) =
        (k + 1, min (interval * 2 ^ (k + 1)) 600)
    ∧ (daemonFailStreak interval (k + 1)).2 ≤ 600 := by
  have hfst : ∀ n, (daemonFailStreak interval n).1 = n := by
    intro n
    induction n with
    | zero => rfl
    | succ m ih => simp [daemonFailStreak, daemonLoopStep, ih]
  have h2 : daemonFailStreak interval (k + 1) =
      (k + 1, min (interval * 2 ^ (k + 1)) 600) := by
    show daemonLoopStep interval (daemonFailStreak interval k).1 false = _
    rw [hfst k]
    simp [daemonLoopStep, MAX_BACKOFF]
  refine ⟨rfl, h2, ?_⟩
  rw [h2]
  exact min_le_right _ _

end WeatherEngine
